import Mathlib

/-!
Verification of the bimg image-transformation layer: a shallow embedding of
src/type.go and src/unnamed/part_000 (the Go half of the libvips binding).

Native libvips calls are modelled by explicit parameters: each bridge call
takes the return code the native engine produced (`code : Int`) and, where it
allocates a fresh image, the attributes of that image (`outA : Img`).  Image
handles are natural-number identifiers; the set of live handles, the sequence
of native calls performed and the engine error buffer form the state.
-/

set_option linter.unusedVariables false

namespace bimg

/-! ### Image formats (src/type.go) -/

/-- Go `type ImageType int` from src/type.go; the constants below mirror the
iota block at the top of that file. -/
abbrev ImageType := Nat

def UNKNOWN : ImageType := 0

def JPEG : ImageType := 1

def WEBP : ImageType := 2

def PNG : ImageType := 3

def TIFF : ImageType := 4

def GIF : ImageType := 5

def PDF : ImageType := 6

def SVG : ImageType := 7

def MAGICK : ImageType := 8

/-- The Go map `ImageTypes` from src/type.go, as an association list with the
map's lookup semantics. -/
def ImageTypes : List (ImageType × String) :=
  [(JPEG, "jpeg"), (PNG, "png"), (WEBP, "webp"), (TIFF, "tiff"), (MAGICK, "magick")]

/-- `ImageTypeName` from src/type.go.  A missing key in a Go string map reads
as the zero value `""`. -/
def ImageTypeName (t : ImageType) : String :=
  let imageType := (ImageTypes.lookup t).getD ""
  if imageType = "" then "unknown" else imageType

/-- `SupportedImageType` (load/save capability record). -/
structure SupportedImageType where
  Load : Bool
  Save : Bool
deriving DecidableEq, Repr

/-- `IsImageTypeSupportedByVips` from src/type.go.  The native discovery step
populates the `SupportedImageTypes` cache; the populated cache is passed in as
`supported`, and a type absent from it reads as `{Load := false, Save := false}`. -/
def IsImageTypeSupportedByVips (supported : List (ImageType × SupportedImageType))
    (t : ImageType) : SupportedImageType :=
  (supported.lookup t).getD ⟨false, false⟩

/-- `IsTypeSupported` from src/type.go: key present in `ImageTypes` and the
engine can load it (Go `&&` short-circuits). -/
def IsTypeSupported (supported : List (ImageType × SupportedImageType))
    (t : ImageType) : Bool :=
  (ImageTypes.lookup t).isSome && (IsImageTypeSupportedByVips supported t).Load

/-- `IsTypeSupportedSave` from src/type.go. -/
def IsTypeSupportedSave (supported : List (ImageType × SupportedImageType))
    (t : ImageType) : Bool :=
  (ImageTypes.lookup t).isSome && (IsImageTypeSupportedByVips supported t).Save

/-! ### The type sniffer (vipsImageType, src/unnamed/part_000 lines 461-484) -/

/-- One Go conjunction `bytes[i0] == v0 && bytes[i1] == v1 && ...` over byte
indices, evaluated left to right with short-circuiting.  Reading an index past
the buffer is a Go runtime panic (index out of range), modelled as `none`. -/
def scAnd (bytes : List Nat) : List (Nat × Nat) → Option Bool
  | [] => some true
  | (i, v) :: rest =>
    match bytes[i]? with
    | none => none
    | some b => if b = v then scAnd bytes rest else some false

/-- `vipsImageType` from src/unnamed/part_000.  `hasMagickSupport` is the
compile-time constant `HasMagickSupport`; `magickSuffix` is the result of the
native probe `strings.HasSuffix(readImageType(bytes), "MagickBuffer")` (only
consulted when reached).  `none` models a runtime panic from an out-of-range
byte index. -/
def vipsImageType (bytes : List Nat) (hasMagickSupport magickSuffix : Bool) :
    Option ImageType :=
  if bytes.length = 0 then some UNKNOWN
  else
    match scAnd bytes [(0, 0x89), (1, 0x50), (2, 0x4E), (3, 0x47)] with
    | none => none
    | some true => some PNG
    | some false =>
      match scAnd bytes [(0, 0xFF), (1, 0xD8), (2, 0xFF)] with
      | none => none
      | some true => some JPEG
      | some false =>
        match scAnd bytes [(8, 0x57), (9, 0x45), (10, 0x42), (11, 0x50)] with
        | none => none
        | some true => some WEBP
        | some false =>
          match scAnd bytes [(0, 0x49), (1, 0x49), (2, 0x2A), (3, 0x00)] with
          | none => none
          | some true => some TIFF
          | some false =>
            match scAnd bytes [(0, 0x4D), (1, 0x4D), (2, 0x00), (3, 0x2A)] with
            | none => none
            | some true => some TIFF
            | some false =>
              if hasMagickSupport && magickSuffix then some MAGICK else some UNKNOWN

/-- `DetermineImageType` from src/type.go: a direct call to `vipsImageType`. -/
def DetermineImageType (buf : List Nat) (hasMagickSupport magickSuffix : Bool) :
    Option ImageType :=
  vipsImageType buf hasMagickSupport magickSuffix

/-- If a short-circuit conjunction reached a `true` verdict, every index it
names was read successfully, hence lies inside the buffer. -/
theorem scAnd_true_bound (bytes : List Nat) :
    ∀ l : List (Nat × Nat), scAnd bytes l = some true →
      ∀ p ∈ l, p.1 < bytes.length := by
  intro l
  induction l with
  | nil => intro _ p hp; cases hp
  | cons q rest ih =>
    intro hsc p hp
    unfold scAnd at hsc
    cases hb : bytes[q.1]? with
    | none =>
      simp [hb] at hsc
    | some b =>
      simp only [hb] at hsc
      by_cases hbv : b = q.2
      · rw [if_pos hbv] at hsc
        rcases List.mem_cons.mp hp with hpe | hpm
        · subst hpe
          rcases Nat.lt_or_ge p.1 bytes.length with hlt | hge
          · exact hlt
          · rw [List.getElem?_eq_none hge] at hb
            cases hb
        · exact ih hsc p hpm
      · rw [if_neg hbv] at hsc
        exact absurd (Option.some.inj hsc) (by simp)

/-! ### Native image handles and engine state (src/unnamed/part_000)

A handle is a natural-number identifier.  `VState.imgs` lists the live handles
with the image attributes the Go layer consults (`has_alpha_channel`,
`vips_colourspace_issupported_bridge`, `has_profile_embed`); `VState.trace`
records the native bridge calls in reverse order of execution; `VState.errbuf`
is the engine error buffer read by `catchVipsError`. -/

/-- Attributes of one native image consulted by the Go layer. -/
structure Img where
  hasAlpha : Bool
  csSupported : Bool
  hasProfile : Bool
deriving DecidableEq, Repr

instance : Inhabited Img := ⟨⟨false, false, false⟩⟩

/-- One native bridge invocation, with the arguments the claims are about. -/
inductive NCall where
  | rotate
  | flip
  | zoom
  | watermarkC
  | extractArea (left top width height : Int)
  | embedC (left top width height extend : Int)
  | insertC
  | affineC
  | gaussblurC
  | sharpenC
  | extractBandC
  | linear1C
  | addC
  | multiplyC
  | divideC
  | ifthenelseC
  | bandjoin2C
  | flattenC
  | colourspaceC
  | removeProfileC
  | webpsaveC
  | pngsaveC
  | jpegsaveC
deriving DecidableEq, Repr

/-- The engine-side state threaded through the operations. -/
structure VState where
  imgs : List (Nat × Img)
  next : Nat
  trace : List NCall
  errbuf : String
deriving DecidableEq, Repr

/-- A handle is live when it is among the state's images. -/
def VState.isLive (st : VState) (h : Nat) : Bool :=
  st.imgs.any (fun p => p.1 == h)

/-- `C.g_object_unref` on an image handle: under the library's single-owner
discipline the handle is destroyed and ceases to be live. -/
def unrefI (h : Nat) (st : VState) : VState :=
  { st with imgs := st.imgs.filter (fun p => p.1 != h) }

/-- Record one native bridge invocation. -/
def pushT (c : NCall) (st : VState) : VState :=
  { st with trace := c :: st.trace }

/-- A native call materializes a fresh image with attributes `a`. -/
def newImg (st : VState) (a : Img) : Nat × VState :=
  (st.next, { st with imgs := (st.next, a) :: st.imgs, next := st.next + 1 })

/-- `catchVipsError` from src/unnamed/part_000: reads the engine error buffer
and clears it (the thread-shutdown hook has no observable effect here). -/
def catchVipsError (st : VState) : String × VState :=
  (st.errbuf, { st with errbuf := "" })

/-- `C.vips_error_clear`. -/
def vips_error_clear (st : VState) : VState :=
  { st with errbuf := "" }

/-- Model of a vips.h bridge that produces one new image (vips.h is not under
src/): the bridge is invoked (traced), and on a zero return code it allocates
the out image, whose attributes `outA` the engine determines; it does not
change the ownership of its inputs (for these bridges the Go wrappers under
src/ release the inputs via `defer`). -/
def bridgeNew (c : NCall) (st : VState) (code : Int) (outA : Img) : Nat × VState :=
  let st1 := pushT c st
  if code = 0 then newImg st1 outA else (0, st1)

/-- `Color` (RGB background triple); declared outside src/ but fully fixed by
its three channel fields as used in part_000. -/
structure Color where
  R : Int
  G : Int
  B : Int
deriving DecidableEq, Repr

/-- Modelled from the spec: the `Watermark` value object (WatermarkSpec, spec
section 3) is declared outside src/; float fields are carried as integers since
their values are passed through opaquely. -/
structure Watermark where
  Width : Int
  DPI : Int
  Margin : Int
  NoReplicate : Bool
  Opacity : Int
  Text : String
  Font : String
  Background : Color
deriving DecidableEq, Repr

/-- Modelled from the spec: `GaussianBlur` options (declared outside src/),
floats carried as integers. -/
structure GaussianBlur where
  Sigma : Int
  MinAmpl : Int
deriving DecidableEq, Repr

/-- Modelled from the spec: `Sharpen` options (declared outside src/), floats
carried as integers. -/
structure Sharpen where
  Radius : Int
  X1 : Int
  Y2 : Int
  Y3 : Int
  M1 : Int
  M2 : Int
deriving DecidableEq, Repr

/-! ### Pipeline operations (src/unnamed/part_000)

Each Go wrapper is translated return-path by return-path; a Go `defer
C.g_object_unref(h)` is the application of `unrefI h` on every path out of the
function, in last-in-first-out order. -/

/-- `vipsRotate`: `defer unref(image)`; bridge; error or fresh handle. -/
def vipsRotate (st : VState) (image : Nat) (angle code : Int) (outA : Img) :
    Except String Nat × VState :=
  let r := bridgeNew NCall.rotate st code outA
  if code ≠ 0 then
    let e := catchVipsError r.2
    (Except.error e.1, unrefI image e.2)
  else
    (Except.ok r.1, unrefI image r.2)

/-- `vipsFlip`. -/
def vipsFlip (st : VState) (image : Nat) (direction code : Int) (outA : Img) :
    Except String Nat × VState :=
  let r := bridgeNew NCall.flip st code outA
  if code ≠ 0 then
    let e := catchVipsError r.2
    (Except.error e.1, unrefI image e.2)
  else
    (Except.ok r.1, unrefI image r.2)

/-- `vipsZoom`. -/
def vipsZoom (st : VState) (image : Nat) (zoom code : Int) (outA : Img) :
    Except String Nat × VState :=
  let r := bridgeNew NCall.zoom st code outA
  if code ≠ 0 then
    let e := catchVipsError r.2
    (Except.error e.1, unrefI image e.2)
  else
    (Except.ok r.1, unrefI image r.2)

/-- Modelled from the spec: the C bridge `vips_watermark` lives in vips.h,
which is not under src/.  Per the spec's ownership rule for operations ("the
inputs are always released by the operation itself ... even on failure the
input is released"), the bridge adopts its input image and releases it before
returning, on success and failure alike; on success it also allocates the out
image. -/
def vips_watermark (st : VState) (image : Nat) (code : Int) (outA : Img) :
    Nat × VState :=
  let st1 := unrefI image (pushT NCall.watermarkC st)
  if code = 0 then newImg st1 outA else (0, st1)

/-- `vipsWatermark` from src/unnamed/part_000.  Note: the Go function has no
deferred `g_object_unref` of the input; only the two C strings are freed.  The
input's release is performed inside the `vips_watermark` bridge. -/
def vipsWatermark (st : VState) (image : Nat) (w : Watermark) (code : Int)
    (outA : Img) : Except String Nat × VState :=
  let r := vips_watermark st image code outA
  if code ≠ 0 then
    let e := catchVipsError r.2
    (Except.error e.1, e.2)
  else
    (Except.ok r.1, r.2)

/-- Modelled from the spec: `MaxSize`, the hard maximum dimension ceiling
consulted by `vipsExtract`, is defined outside src/; it is a fixed positive
ceiling (the library uses 16383). -/
def MaxSize : Int := 16383

/-- The Go helper `max` from src/unnamed/part_000:
`int(math.Max(float64(x), 0))`. -/
def max (x : Int) : Int :=
  if x < 0 then 0 else x

/-- `vipsExtract`: `defer unref(image)`; guard against the size ceiling before
any native call; clamp `top` and `left` to zero; then the extract-area
bridge. -/
def vipsExtract (st : VState) (image : Nat) (left top width height : Int)
    (code : Int) (outA : Img) : Except String Nat × VState :=
  if MaxSize < width ∨ MaxSize < height then
    (Except.error "Maximum image size exceeded", unrefI image st)
  else
    let top1 := max top
    let left1 := max left
    let r := bridgeNew (NCall.extractArea left1 top1 width height) st code outA
    if code ≠ 0 then
      let e := catchVipsError r.2
      (Except.error e.1, unrefI image e.2)
    else
      (Except.ok r.1, unrefI image r.2)

/-- Modelled from the spec: `ExtendBackground`, the background-colour extend
mode, is a constant declared outside src/ (libvips `VIPS_EXTEND_BACKGROUND`,
value 5; the engine's supported extend modes are 0 through 5). -/
def ExtendBackground : Int := 5

/-- `vipsEmbed`: `defer unref(input)`; an extend mode greater than 5 is
replaced by `ExtendBackground`; then the embed bridge. -/
def vipsEmbed (st : VState) (input : Nat) (left top width height extend : Int)
    (code : Int) (outA : Img) : Except String Nat × VState :=
  let extend1 := if 5 < extend then ExtendBackground else extend
  let r := bridgeNew (NCall.embedC left top width height extend1) st code outA
  if code ≠ 0 then
    let e := catchVipsError r.2
    (Except.error e.1, unrefI input e.2)
  else
    (Except.ok r.1, unrefI input r.2)

/-- `vipsInsert`: `defer unref(main)` then `defer unref(sub)`; the deferred
calls run in reverse order on every path out. -/
def vipsInsert (st : VState) (main sub : Nat) (left top code : Int) (outA : Img) :
    Except String Nat × VState :=
  let r := bridgeNew NCall.insertC st code outA
  if code ≠ 0 then
    let e := catchVipsError r.2
    (Except.error e.1, unrefI main (unrefI sub e.2))
  else
    (Except.ok r.1, unrefI main (unrefI sub r.2))

/-- `vipsAffine` (the interpolator object is not an image handle; its own
unref is outside this model). -/
def vipsAffine (st : VState) (input : Nat) (residualx residualy : Int)
    (i : String) (code : Int) (outA : Img) : Except String Nat × VState :=
  let r := bridgeNew NCall.affineC st code outA
  if code ≠ 0 then
    let e := catchVipsError r.2
    (Except.error e.1, unrefI input e.2)
  else
    (Except.ok r.1, unrefI input r.2)

/-- `vipsGaussianBlur`. -/
def vipsGaussianBlur (st : VState) (image : Nat) (o : GaussianBlur) (code : Int)
    (outA : Img) : Except String Nat × VState :=
  let r := bridgeNew NCall.gaussblurC st code outA
  if code ≠ 0 then
    let e := catchVipsError r.2
    (Except.error e.1, unrefI image e.2)
  else
    (Except.ok r.1, unrefI image r.2)

/-- `vipsSharpen`. -/
def vipsSharpen (st : VState) (image : Nat) (o : Sharpen) (code : Int)
    (outA : Img) : Except String Nat × VState :=
  let r := bridgeNew NCall.sharpenC st code outA
  if code ≠ 0 then
    let e := catchVipsError r.2
    (Except.error e.1, unrefI image e.2)
  else
    (Except.ok r.1, unrefI image r.2)

/-- `vipsExtractBand`. -/
def vipsExtractBand (st : VState) (image : Nat) (band numberOfBands code : Int)
    (outA : Img) : Except String Nat × VState :=
  let r := bridgeNew NCall.extractBandC st code outA
  if code ≠ 0 then
    let e := catchVipsError r.2
    (Except.error e.1, unrefI image e.2)
  else
    (Except.ok r.1, unrefI image r.2)

/-- `vipsLinear1`. -/
def vipsLinear1 (st : VState) (image : Nat) (a b code : Int) (outA : Img) :
    Except String Nat × VState :=
  let r := bridgeNew NCall.linear1C st code outA
  if code ≠ 0 then
    let e := catchVipsError r.2
    (Except.error e.1, unrefI image e.2)
  else
    (Except.ok r.1, unrefI image r.2)

/-- `vipsAdd`: `defer unref(left)` then `defer unref(right)`. -/
def vipsAdd (st : VState) (left right : Nat) (code : Int) (outA : Img) :
    Except String Nat × VState :=
  let r := bridgeNew NCall.addC st code outA
  if code ≠ 0 then
    let e := catchVipsError r.2
    (Except.error e.1, unrefI left (unrefI right e.2))
  else
    (Except.ok r.1, unrefI left (unrefI right r.2))

/-- `vipsMultiply`. -/
def vipsMultiply (st : VState) (left right : Nat) (code : Int) (outA : Img) :
    Except String Nat × VState :=
  let r := bridgeNew NCall.multiplyC st code outA
  if code ≠ 0 then
    let e := catchVipsError r.2
    (Except.error e.1, unrefI left (unrefI right e.2))
  else
    (Except.ok r.1, unrefI left (unrefI right r.2))

/-- `vipsDivide`. -/
def vipsDivide (st : VState) (left right : Nat) (code : Int) (outA : Img) :
    Except String Nat × VState :=
  let r := bridgeNew NCall.divideC st code outA
  if code ≠ 0 then
    let e := catchVipsError r.2
    (Except.error e.1, unrefI left (unrefI right e.2))
  else
    (Except.ok r.1, unrefI left (unrefI right r.2))

/-- `vipsIthenelse` (sic): three deferred unrefs, run in reverse order. -/
def vipsIthenelse (st : VState) (cond in1 in2 : Nat) (blend : Bool) (code : Int)
    (outA : Img) : Except String Nat × VState :=
  let r := bridgeNew NCall.ifthenelseC st code outA
  if code ≠ 0 then
    let e := catchVipsError r.2
    (Except.error e.1, unrefI cond (unrefI in1 (unrefI in2 e.2)))
  else
    (Except.ok r.1, unrefI cond (unrefI in1 (unrefI in2 r.2)))

/-- `vipsBandjoin2`. -/
def vipsBandjoin2 (st : VState) (in1 in2 : Nat) (code : Int) (outA : Img) :
    Except String Nat × VState :=
  let r := bridgeNew NCall.bandjoin2C st code outA
  if code ≠ 0 then
    let e := catchVipsError r.2
    (Except.error e.1, unrefI in1 (unrefI in2 e.2))
  else
    (Except.ok r.1, unrefI in1 (unrefI in2 r.2))

/-! ### Pre-save stage and encoder dispatch (src/unnamed/part_000) -/

/-- `vipsHasAlpha` (Go) over the C helper `has_alpha_channel`: consults the
image's alpha-presence attribute. -/
def vipsHasAlpha (st : VState) (h : Nat) : Bool :=
  ((st.imgs.lookup h).getD default).hasAlpha

/-- `vipsColourspaceIsSupported` (Go) over
`vips_colourspace_issupported_bridge`. -/
def vipsColourspaceIsSupported (st : VState) (h : Nat) : Bool :=
  ((st.imgs.lookup h).getD default).csSupported

/-- Model of the C helper `remove_profile` (vips.h, not under src/): strips the
embedded colour-profile metadata from the image in place. -/
def remove_profile (st : VState) (h : Nat) : VState :=
  let st1 := pushT NCall.removeProfileC st
  { st1 with
    imgs := st1.imgs.map (fun p =>
      if p.1 == h then (p.1, { p.2 with hasProfile := false }) else p) }

/-- Model of the C bridge `vips_flatten_background_brigde` (sic; vips.h, not
under src/): on success it materializes a new image from the input flattened
onto the background — per the spec a new opaque handle, so its alpha flag is
false — and leaves the input's ownership to the Go caller. -/
def vips_flatten_background_brigde (st : VState) (image : Nat) (code : Int) :
    Nat × VState :=
  let st1 := pushT NCall.flattenC st
  if code = 0 then
    newImg st1 { (st.imgs.lookup image).getD default with hasAlpha := false }
  else (0, st1)

/-- `vipsFlattenBackground` from src/unnamed/part_000: only an image with an
alpha channel is flattened (and the input is then unreffed and replaced by the
bridge's output); an image without alpha is returned unchanged with no native
call.  On a bridge failure the function returns the captured error (note: on
that path the Go code does not unref the input). -/
def vipsFlattenBackground (st : VState) (image : Nat) (background : Color)
    (code : Int) : Except String Nat × VState :=
  if vipsHasAlpha st image then
    let r := vips_flatten_background_brigde st image code
    if code ≠ 0 then
      let e := catchVipsError r.2
      (Except.error e.1, e.2)
    else
      (Except.ok r.1, unrefI image r.2)
  else
    (Except.ok image, st)

/-- Modelled from the spec: the `Interpretation` constants are declared outside
src/; the pre-save default target is standard RGB (libvips sRGB, value 22), and
the zero value marks "unspecified". -/
def InterpretationSRGB : Int := 22

/-- `vipsSaveOptions` from src/unnamed/part_000.  The Go field `Type` is
spelled `Typ` here because Lean reserves the word. -/
structure vipsSaveOptions where
  Quality : Int
  Compression : Int
  Typ : ImageType
  Interlace : Bool
  NoProfile : Bool
  Interpretation : Int
deriving DecidableEq, Repr

/-- `vipsPreSave` from src/unnamed/part_000: strip the profile when
`NoProfile` is set; default the interpretation to sRGB; when the colourspace
is convertible, convert through the colourspace bridge (`csCode` its return
code, `csOutA` the converted image's attributes).  The options record is
returned as well because the Go function mutates it through a pointer.  There
is no alpha flattening here. -/
def vipsPreSave (st : VState) (image : Nat) (o : vipsSaveOptions)
    (csCode : Int) (csOutA : Img) :
    Except String Nat × vipsSaveOptions × VState :=
  let st1 := if o.NoProfile then remove_profile st image else st
  let o1 := if o.Interpretation = 0 then { o with Interpretation := InterpretationSRGB } else o
  if vipsColourspaceIsSupported st1 image then
    let r := bridgeNew NCall.colourspaceC st1 csCode csOutA
    if csCode ≠ 0 then
      let e := catchVipsError r.2
      (Except.error e.1, o1, e.2)
    else
      (Except.ok r.1, o1, r.2)
  else
    (Except.ok image, o1, st1)

/-- `vipsSave` from src/unnamed/part_000: `defer unref(image)`; run
`vipsPreSave`; `defer unref(tmpImage)`; dispatch on the options' type to the
WEBP, PNG or (default) JPEG encoder bridge; on success clear the error buffer
and return the buffer (modelled as `Unit`). -/
def vipsSave (st : VState) (image : Nat) (o : vipsSaveOptions)
    (csCode saveCode : Int) (csOutA : Img) : Except String Unit × VState :=
  let pre := vipsPreSave st image o csCode csOutA
  match pre.1 with
  | Except.error e => (Except.error e, unrefI image pre.2.2)
  | Except.ok tmpImage =>
    let o2 := pre.2.1
    let st2 :=
      if o2.Typ = WEBP then pushT NCall.webpsaveC pre.2.2
      else if o2.Typ = PNG then pushT NCall.pngsaveC pre.2.2
      else pushT NCall.jpegsaveC pre.2.2
    if saveCode ≠ 0 then
      let e := catchVipsError st2
      (Except.error e.1, unrefI image (unrefI tmpImage e.2))
    else
      (Except.ok (), unrefI image (unrefI tmpImage (vips_error_clear st2)))

/-- The encoder bridge calls among the native calls. -/
def isEncoderCall : NCall → Bool
  | NCall.webpsaveC => true
  | NCall.pngsaveC => true
  | NCall.jpegsaveC => true
  | _ => false

/-! ### Engine lifecycle manager (src/unnamed/part_000 lines 31-122) -/

/-- `maxCacheMem` from src/unnamed/part_000. -/
def maxCacheMem : Int := 100 * 1024 * 1024

/-- `maxCacheSize` from src/unnamed/part_000. -/
def maxCacheSize : Int := 500

/-- The process-wide lifecycle state: the `initialized` flag, the number of
times `C.vips_init` has been invoked, and the native configuration the
initialization sequence writes. -/
structure LifeState where
  initialized : Bool
  vipsInitCalls : Nat
  cacheMaxMem : Int
  cacheMax : Int
  concurrency : Option Int
  traceEnabled : Bool
  shutdowns : Nat
deriving DecidableEq, Repr

/-- `Initialize` from src/unnamed/part_000.  `major`/`minor` are the linked
engine's version constants, `initRet` the return of `C.vips_init`, and
`concEnv`/`traceEnv` the `VIPS_CONCURRENCY` and `VIPS_TRACE` environment
variables.  `none` models a panic (process abort).  Note there is no guard on
`st.initialized`: the native initialization sequence runs on every call. -/
def Initialize (major minor initRet : Int) (concEnv traceEnv : String)
    (st : LifeState) : Option LifeState :=
  if major ≤ 7 ∧ minor < 40 then none
  else if initRet ≠ 0 then none
  else some { st with
    vipsInitCalls := st.vipsInitCalls + 1
    cacheMaxMem := maxCacheMem
    cacheMax := maxCacheSize
    concurrency := if concEnv = "" then some 1 else st.concurrency
    traceEnabled := if traceEnv ≠ "" then true else st.traceEnabled
    initialized := true }

/-- `Shutdown` from src/unnamed/part_000: guarded by the `initialized` flag. -/
def Shutdown (st : LifeState) : LifeState :=
  if st.initialized then
    { st with shutdowns := st.shutdowns + 1, initialized := false }
  else st

/-- The spec's words, for comparison with the code's version guard: the linked
engine version is below the supported minimum 7.40. -/
def specVersionBelowMinimum (major minor : Int) : Bool :=
  major < 7 || (major == 7 && minor < 40)

/-! ### Helper lemmas on the state operations -/

@[simp] theorem unrefI_trace (h : Nat) (st : VState) : (unrefI h st).trace = st.trace := rfl

@[simp] theorem unrefI_errbuf (h : Nat) (st : VState) : (unrefI h st).errbuf = st.errbuf := rfl

@[simp] theorem pushT_trace (c : NCall) (st : VState) : (pushT c st).trace = c :: st.trace := rfl

@[simp] theorem pushT_next (c : NCall) (st : VState) : (pushT c st).next = st.next := rfl

@[simp] theorem pushT_imgs (c : NCall) (st : VState) : (pushT c st).imgs = st.imgs := rfl

@[simp] theorem newImg_fst (st : VState) (a : Img) : (newImg st a).1 = st.next := rfl

@[simp] theorem newImg_trace (st : VState) (a : Img) : (newImg st a).2.trace = st.trace := rfl

@[simp] theorem catchVipsError_trace (st : VState) : (catchVipsError st).2.trace = st.trace := rfl

@[simp] theorem vips_error_clear_trace (st : VState) : (vips_error_clear st).trace = st.trace := rfl

@[simp] theorem remove_profile_trace (st : VState) (h : Nat) :
    (remove_profile st h).trace = NCall.removeProfileC :: st.trace := rfl

@[simp] theorem bridgeNew_trace (c : NCall) (st : VState) (code : Int) (outA : Img) :
    (bridgeNew c st code outA).2.trace = c :: st.trace := by
  unfold bridgeNew
  split <;> rfl

@[simp] theorem bridgeNew_fst (c : NCall) (st : VState) (outA : Img) :
    (bridgeNew c st 0 outA).1 = st.next := rfl

/-- After `unrefI h`, the handle `h` is not live. -/
theorem isLive_unrefI_self (st : VState) (h : Nat) : (unrefI h st).isLive h = false := by
  unfold VState.isLive unrefI
  rw [Bool.eq_false_iff]
  intro hx
  rw [List.any_eq_true] at hx
  obtain ⟨x, hxm, hfx⟩ := hx
  have hne := (List.mem_filter.mp hxm).2
  simp only [bne_iff_ne, ne_eq] at hne
  exact hne (by simpa using hfx)

/-- `unrefI` never revives a handle. -/
theorem isLive_unrefI_of_false (st : VState) (h h' : Nat)
    (hst : st.isLive h = false) : (unrefI h' st).isLive h = false := by
  unfold VState.isLive unrefI at *
  rw [Bool.eq_false_iff] at hst ⊢
  intro hx
  apply hst
  rw [List.any_eq_true] at hx ⊢
  obtain ⟨x, hxm, hfx⟩ := hx
  exact ⟨x, (List.mem_filter.mp hxm).1, hfx⟩

/-- Allocating a fresh image does not revive a distinct dead handle. -/
theorem isLive_newImg_of_false (st : VState) (h : Nat) (a : Img)
    (hne : h ≠ st.next) (hst : st.isLive h = false) :
    (newImg st a).2.isLive h = false := by
  unfold VState.isLive newImg at *
  rw [Bool.eq_false_iff] at hst ⊢
  intro hx
  rw [List.any_eq_true] at hx
  obtain ⟨x, hxm, hfx⟩ := hx
  rcases List.mem_cons.mp hxm with hxe | hxm2
  · subst hxe
    have hxe2 : st.next = h := by simpa using hfx
    exact hne hxe2.symm
  · exact hst (List.any_eq_true.mpr ⟨x, hxm2, hfx⟩)

/-- Lookup of the removed key in a key-filtered association list. -/
theorem lookup_filterKey_self (l : List (Nat × Img)) (h : Nat) :
    (l.filter (fun p => p.1 != h)).lookup h = none := by
  induction l with
  | nil => rfl
  | cons q t ih =>
    by_cases hq : q.1 = h
    · rw [List.filter_cons, if_neg (by simpa using hq)]
      exact ih
    · rw [List.filter_cons, if_pos (by simpa using hq)]
      rw [List.lookup_cons]
      have hb : (h == q.1) = false := beq_eq_false_iff_ne.mpr fun he => hq he.symm
      rw [hb]
      exact ih

/-- Lookup of another key is unchanged by a key-filter. -/
theorem lookup_filterKey_ne (l : List (Nat × Img)) (k h : Nat) (hk : k ≠ h) :
    (l.filter (fun p => p.1 != h)).lookup k = l.lookup k := by
  induction l with
  | nil => rfl
  | cons q t ih =>
    by_cases hq : q.1 = h
    · rw [List.filter_cons, if_neg (by simpa using hq)]
      rw [ih, List.lookup_cons]
      have hb : (k == q.1) = false := beq_eq_false_iff_ne.mpr (by rw [hq]; exact hk)
      rw [hb]
    · rw [List.filter_cons, if_pos (by simpa using hq)]
      rw [List.lookup_cons, List.lookup_cons]
      cases hbeq : (k == q.1) with
      | true => rfl
      | false => exact ih

/-- No element with the removed key survives a key-filter (liveness of a
handle, phrased at the level of the image list). -/
theorem any_keyFilter_self (l : List (Nat × Img)) (h : Nat) :
    ((l.filter (fun p => p.1 != h)).any (fun p => p.1 == h)) = false := by
  rw [Bool.eq_false_iff]
  intro hx
  rw [List.any_eq_true] at hx
  obtain ⟨x, hm, hf⟩ := hx
  have hne := (List.mem_filter.mp hm).2
  simp only [bne_iff_ne, ne_eq] at hne
  exact hne (by simpa using hf)

/-- Filtering never makes a dead handle live. -/
theorem any_filter_sub (l : List (Nat × Img)) (f q : Nat × Img → Bool)
    (hl : l.any f = false) : ((l.filter q).any f) = false := by
  rw [Bool.eq_false_iff] at hl ⊢
  intro hx
  apply hl
  rw [List.any_eq_true] at hx ⊢
  obtain ⟨x, hm, hf⟩ := hx
  exact ⟨x, (List.mem_filter.mp hm).1, hf⟩

/-- Prepending a fresh image with a different id keeps a removed handle dead. -/
theorem any_cons_keyFilter (k : Nat) (a : Img) (l : List (Nat × Img)) (h : Nat)
    (hk : (k == h) = false) :
    ((((k, a) :: l.filter (fun p => p.1 != h)).any (fun p => p.1 == h))) = false := by
  rw [List.any_cons]
  simp only [hk, Bool.false_or]
  exact any_keyFilter_self l h

/-! ### Concrete states used by witnesses and counterexamples -/

/-- One live handle `0` (alpha, convertible colourspace, embedded profile). -/
def stW : VState := { imgs := [(0, ⟨true, true, true⟩)], next := 1, trace := [], errbuf := "" }

/-- One live handle `0` carrying an alpha channel, colourspace not convertible. -/
def stA : VState := { imgs := [(0, ⟨true, false, false⟩)], next := 1, trace := [], errbuf := "" }

/-- A trivial watermark spec. -/
def wm0 : Watermark := ⟨0, 0, 0, false, 0, "", "", ⟨0, 0, 0⟩⟩

/-- Default-ish save options targeting JPEG. -/
def oJde : vipsSaveOptions :=
  { Quality := 80, Compression := 6, Typ := JPEG, Interlace := false
    NoProfile := false, Interpretation := 0 }

/-! ### C1 -/

/-- C1: every pipeline operation (Watermark, Rotate, Flip, Zoom, Extract/Crop,
Embed, Insert, Affine, GaussianBlur, Sharpen, ExtractBand, Linear, the
arithmetic operations, SelectBlend, BandJoin) releases each of its input
handles before returning, for every input handle and parameter value, both on
success and on error.  For Watermark (whose input id must be one the allocator
has already issued, `image < st.next`) the release happens inside the
spec-modelled `vips_watermark` bridge; every other operation releases through
its Go `defer`. -/
theorem C1_operations_release_inputs :
    (∀ st image w code outA, image < st.next →
      ((vipsWatermark st image w code outA).2.isLive image) = false) ∧
    (∀ st image angle code outA,
      ((vipsRotate st image angle code outA).2.isLive image) = false) ∧
    (∀ st image direction code outA,
      ((vipsFlip st image direction code outA).2.isLive image) = false) ∧
    (∀ st image zoom code outA,
      ((vipsZoom st image zoom code outA).2.isLive image) = false) ∧
    (∀ st image left top width height code outA,
      ((vipsExtract st image left top width height code outA).2.isLive image) = false) ∧
    (∀ st input left top width height extend code outA,
      ((vipsEmbed st input left top width height extend code outA).2.isLive input) = false) ∧
    (∀ st main sub left top code outA,
      ((vipsInsert st main sub left top code outA).2.isLive main) = false ∧
      ((vipsInsert st main sub left top code outA).2.isLive sub) = false) ∧
    (∀ st input residualx residualy i code outA,
      ((vipsAffine st input residualx residualy i code outA).2.isLive input) = false) ∧
    (∀ st image o code outA,
      ((vipsGaussianBlur st image o code outA).2.isLive image) = false) ∧
    (∀ st image o code outA,
      ((vipsSharpen st image o code outA).2.isLive image) = false) ∧
    (∀ st image band numberOfBands code outA,
      ((vipsExtractBand st image band numberOfBands code outA).2.isLive image) = false) ∧
    (∀ st image a b code outA,
      ((vipsLinear1 st image a b code outA).2.isLive image) = false) ∧
    (∀ st left right code outA,
      ((vipsAdd st left right code outA).2.isLive left) = false ∧
      ((vipsAdd st left right code outA).2.isLive right) = false) ∧
    (∀ st left right code outA,
      ((vipsMultiply st left right code outA).2.isLive left) = false ∧
      ((vipsMultiply st left right code outA).2.isLive right) = false) ∧
    (∀ st left right code outA,
      ((vipsDivide st left right code outA).2.isLive left) = false ∧
      ((vipsDivide st left right code outA).2.isLive right) = false) ∧
    (∀ st cond in1 in2 blend code outA,
      ((vipsIthenelse st cond in1 in2 blend code outA).2.isLive cond) = false ∧
      ((vipsIthenelse st cond in1 in2 blend code outA).2.isLive in1) = false ∧
      ((vipsIthenelse st cond in1 in2 blend code outA).2.isLive in2) = false) ∧
    (∀ st in1 in2 code outA,
      ((vipsBandjoin2 st in1 in2 code outA).2.isLive in1) = false ∧
      ((vipsBandjoin2 st in1 in2 code outA).2.isLive in2) = false) := by
  refine ⟨?_, ?_, ?_, ?_, ?_, ?_, ?_, ?_, ?_, ?_, ?_, ?_, ?_, ?_, ?_, ?_, ?_⟩
  · intro st image w code outA hlt
    have hk : (st.next == image) = false := beq_eq_false_iff_ne.mpr (Nat.ne_of_lt hlt).symm
    simp only [vipsWatermark, vips_watermark]
    split
    · exact any_keyFilter_self _ _
    · split
      · exact any_cons_keyFilter _ _ _ _ hk
      · omega
  · intro st image angle code outA
    simp only [vipsRotate]
    split <;> exact any_keyFilter_self _ _
  · intro st image direction code outA
    simp only [vipsFlip]
    split <;> exact any_keyFilter_self _ _
  · intro st image zoom code outA
    simp only [vipsZoom]
    split <;> exact any_keyFilter_self _ _
  · intro st image left top width height code outA
    simp only [vipsExtract]
    split
    · exact any_keyFilter_self _ _
    · split <;> exact any_keyFilter_self _ _
  · intro st input left top width height extend code outA
    simp only [vipsEmbed]
    split <;> exact any_keyFilter_self _ _
  · intro st main sub left top code outA
    constructor
    · simp only [vipsInsert]
      split <;> exact any_keyFilter_self _ _
    · simp only [vipsInsert]
      split <;> exact any_filter_sub _ _ _ (any_keyFilter_self _ _)
  · intro st input residualx residualy i code outA
    simp only [vipsAffine]
    split <;> exact any_keyFilter_self _ _
  · intro st image o code outA
    simp only [vipsGaussianBlur]
    split <;> exact any_keyFilter_self _ _
  · intro st image o code outA
    simp only [vipsSharpen]
    split <;> exact any_keyFilter_self _ _
  · intro st image band numberOfBands code outA
    simp only [vipsExtractBand]
    split <;> exact any_keyFilter_self _ _
  · intro st image a b code outA
    simp only [vipsLinear1]
    split <;> exact any_keyFilter_self _ _
  · intro st left right code outA
    constructor
    · simp only [vipsAdd]
      split <;> exact any_keyFilter_self _ _
    · simp only [vipsAdd]
      split <;> exact any_filter_sub _ _ _ (any_keyFilter_self _ _)
  · intro st left right code outA
    constructor
    · simp only [vipsMultiply]
      split <;> exact any_keyFilter_self _ _
    · simp only [vipsMultiply]
      split <;> exact any_filter_sub _ _ _ (any_keyFilter_self _ _)
  · intro st left right code outA
    constructor
    · simp only [vipsDivide]
      split <;> exact any_keyFilter_self _ _
    · simp only [vipsDivide]
      split <;> exact any_filter_sub _ _ _ (any_keyFilter_self _ _)
  · intro st cond in1 in2 blend code outA
    refine ⟨?_, ?_, ?_⟩
    · simp only [vipsIthenelse]
      split <;> exact any_keyFilter_self _ _
    · simp only [vipsIthenelse]
      split <;> exact any_filter_sub _ _ _ (any_keyFilter_self _ _)
    · simp only [vipsIthenelse]
      split <;> exact any_filter_sub _ _ _ (any_filter_sub _ _ _ (any_keyFilter_self _ _))
  · intro st in1 in2 code outA
    constructor
    · simp only [vipsBandjoin2]
      split <;> exact any_keyFilter_self _ _
    · simp only [vipsBandjoin2]
      split <;> exact any_filter_sub _ _ _ (any_keyFilter_self _ _)

/-- C1 witness: the Watermark conjunct (the one with a hypothesis) at a
concrete state with one live handle. -/
theorem C1_operations_release_inputs_witness :
    0 < stW.next ∧ ((vipsWatermark stW 0 wm0 0 default).2.isLive 0) = false :=
  ⟨by decide, C1_operations_release_inputs.1 stW 0 wm0 0 default (by decide)⟩

/-! ### C4 -/

/-- C4: for every input handle and every requested width or height strictly
greater than `MaxSize`, Extract/Crop returns the error "Maximum image size
exceeded", performs no native call (the trace is unchanged), and still
releases the input handle. -/
theorem C4_extract_size_exceeded :
    ∀ (st : VState) (image : Nat) (left top width height code : Int) (outA : Img),
      MaxSize < width ∨ MaxSize < height →
      (vipsExtract st image left top width height code outA).1 =
          Except.error "Maximum image size exceeded" ∧
        ((vipsExtract st image left top width height code outA).2.isLive image) = false ∧
        (vipsExtract st image left top width height code outA).2.trace = st.trace := by
  intro st image left top width height code outA hgt
  unfold vipsExtract
  rw [if_pos hgt]
  exact ⟨rfl, isLive_unrefI_self st image, rfl⟩

/-- C4 witness: a width of 20000 on a singleton state. -/
theorem C4_extract_size_exceeded_witness :
    MaxSize < 20000 ∧
      (vipsExtract stW 0 0 0 20000 10 0 default).1 =
          Except.error "Maximum image size exceeded" ∧
        ((vipsExtract stW 0 0 0 20000 10 0 default).2.isLive 0) = false ∧
        (vipsExtract stW 0 0 0 20000 10 0 default).2.trace = stW.trace :=
  ⟨by decide, C4_extract_size_exceeded stW 0 0 0 20000 10 0 default (Or.inl (by decide))⟩

/-! ### C5 -/

/-- C5: for negative `left` or `top` (within the size ceiling), Extract/Crop
clamps the negative coordinate to zero before the native extract-area call —
the native call receives origin `(max left, max top)`, where `max` sends a
negative value to 0 and keeps a non-negative one — and the negative
coordinates cause no error: a zero native return code yields a new handle. -/
theorem C5_extract_clamps_negative_origin :
    ∀ (st : VState) (image : Nat) (left top width height code : Int) (outA : Img),
      left < 0 ∨ top < 0 → width ≤ MaxSize → height ≤ MaxSize →
      ((vipsExtract st image left top width height code outA).2.trace =
          NCall.extractArea (max left) (max top) width height :: st.trace) ∧
        (left < 0 → max left = 0) ∧ (0 ≤ left → max left = left) ∧
        (top < 0 → max top = 0) ∧ (0 ≤ top → max top = top) ∧
        (code = 0 →
          (vipsExtract st image left top width height code outA).1 = Except.ok st.next) := by
  intro st image left top width height code outA hneg hw hh
  have hguard : ¬(MaxSize < width ∨ MaxSize < height) := by omega
  refine ⟨?_, ?_, ?_, ?_, ?_, ?_⟩
  · unfold vipsExtract
    rw [if_neg hguard]
    split <;> simp
  · intro hl; unfold max; rw [if_pos hl]
  · intro hl; unfold max; rw [if_neg (by omega)]
  · intro ht; unfold max; rw [if_pos ht]
  · intro ht; unfold max; rw [if_neg (by omega)]
  · intro hcode
    subst hcode
    unfold vipsExtract
    rw [if_neg hguard]
    rfl

/-- C5 witness: `left = top = -5` on a 10 by 10 crop of a singleton state. -/
theorem C5_extract_clamps_negative_origin_witness :
    ((-5 : Int) < 0 ∨ (-5 : Int) < 0) ∧ (10 : Int) ≤ MaxSize ∧
      (((vipsExtract stW 0 (-5) (-5) 10 10 0 default).2.trace =
          NCall.extractArea (max (-5)) (max (-5)) 10 10 :: stW.trace) ∧
        ((-5 : Int) < 0 → max (-5) = 0) ∧ ((0 : Int) ≤ -5 → max (-5) = -5) ∧
        ((-5 : Int) < 0 → max (-5) = 0) ∧ ((0 : Int) ≤ -5 → max (-5) = -5) ∧
        ((0 : Int) = 0 →
          (vipsExtract stW 0 (-5) (-5) 10 10 0 default).1 = Except.ok stW.next)) :=
  ⟨Or.inl (by decide), by decide,
    C5_extract_clamps_negative_origin stW 0 (-5) (-5) 10 10 0 default
      (Or.inl (by decide)) (by decide) (by decide)⟩

/-! ### C7 -/

/-- C7 counterexample: the out-of-range extend mode `-1` (the supported range
is 0..5) is passed to the native embed call unchanged instead of being
replaced by the background mode: the claim as stated is false for negative
extend values. -/
theorem C7_counterexample :
    (¬(0 ≤ (-1 : Int) ∧ (-1 : Int) ≤ 5)) ∧
      (-1 : Int) ≠ ExtendBackground ∧
      (vipsEmbed stW 0 0 0 10 10 (-1) 0 default).2.trace.head? =
        some (NCall.embedC 0 0 10 10 (-1)) := by
  refine ⟨by decide, by decide, ?_⟩
  rfl

/-- C7 amended: only extend modes strictly greater than 5 are replaced by the
background mode; every extend value at most 5 — including negative,
out-of-range ones — is passed to the native embed call unchanged. -/
theorem C7_embed_extend_substitution :
    ∀ (st : VState) (input : Nat) (left top width height extend code : Int) (outA : Img),
      (vipsEmbed st input left top width height extend code outA).2.trace.head? =
        some (NCall.embedC left top width height
          (if 5 < extend then ExtendBackground else extend)) := by
  intro st input left top width height extend code outA
  unfold vipsEmbed
  split <;> split <;> simp

/-! ### C6 -/

/-- C6 counterexample: a save of an image that carries an alpha channel.  The
pre-save stage run by `vipsSave` performs no flatten (the trace contains no
flatten call) and the encode succeeds on the still-transparent image: the
pre-save normalizer does not flatten alpha onto a background. -/
theorem C6_counterexample :
    vipsHasAlpha stA 0 = true ∧
      (vipsSave stA 0 oJde 0 0 default).1 = Except.ok () ∧
      (vipsSave stA 0 oJde 0 0 default).2.trace.count NCall.flattenC = 0 := by
  refine ⟨rfl, rfl, rfl⟩

/-- The flatten bridge's output image is opaque, whatever the relation of the
fresh id to the released input id. -/
theorem hasAlpha_after_flatten (st : VState) (h : Nat) (A : Img)
    (hA : A.hasAlpha = false) :
    vipsHasAlpha (unrefI h (newImg (pushT NCall.flattenC st) A).2) st.next = false := by
  unfold vipsHasAlpha
  by_cases hne : st.next = h
  · rw [show (unrefI h (newImg (pushT NCall.flattenC st) A).2).imgs =
        (((st.next, A) :: st.imgs).filter (fun p => p.1 != h)) from rfl]
    rw [hne, lookup_filterKey_self]
    rfl
  · rw [show (unrefI h (newImg (pushT NCall.flattenC st) A).2).imgs =
        (((st.next, A) :: st.imgs).filter (fun p => p.1 != h)) from rfl]
    rw [lookup_filterKey_ne _ _ _ hne, List.lookup_cons, beq_self_eq_true]
    exact hA

/-- C6 amended: the pre-save stage (`vipsPreSave`) strips the profile,
defaults the interpretation and converts the colourspace but never flattens
(it adds no flatten call to the trace).  Alpha flattening lives in the
separate `vipsFlattenBackground` helper: a handle without alpha passes through
unchanged with no native call, and a handle with alpha is flattened by the
native bridge into a new opaque handle while the input is released. -/
theorem C6_presave_and_flatten :
    (∀ (st : VState) (image : Nat) (o : vipsSaveOptions) (csCode : Int) (csOutA : Img),
      (vipsPreSave st image o csCode csOutA).2.2.trace.count NCall.flattenC =
        st.trace.count NCall.flattenC) ∧
    (∀ (st : VState) (h : Nat) (bg : Color) (code : Int),
      vipsHasAlpha st h = false →
      vipsFlattenBackground st h bg code = (Except.ok h, st)) ∧
    (∀ (st : VState) (h : Nat) (bg : Color),
      vipsHasAlpha st h = true →
      (vipsFlattenBackground st h bg 0).1 = Except.ok st.next ∧
        vipsHasAlpha (vipsFlattenBackground st h bg 0).2 st.next = false ∧
        ((vipsFlattenBackground st h bg 0).2.isLive h) = false ∧
        (vipsFlattenBackground st h bg 0).2.trace = NCall.flattenC :: st.trace) := by
  refine ⟨?_, ?_, ?_⟩
  · intro st image o csCode csOutA
    simp only [vipsPreSave]
    repeat' split
    all_goals simp
  · intro st h bg code hna
    unfold vipsFlattenBackground
    rw [hna]
    simp
  · intro st h bg ha
    have hval : vipsFlattenBackground st h bg 0 =
        (Except.ok st.next,
          unrefI h (newImg (pushT NCall.flattenC st)
            { hasAlpha := false
              csSupported := ((st.imgs.lookup h).getD default).csSupported
              hasProfile := ((st.imgs.lookup h).getD default).hasProfile }).2) := by
      simp [vipsFlattenBackground, vips_flatten_background_brigde, ha]
    refine ⟨by simp [hval], ?_, ?_, by rw [hval]; rfl⟩
    · rw [hval]
      exact hasAlpha_after_flatten st h _ rfl
    · rw [hval]
      exact isLive_unrefI_self _ _

/-- C6 witness: on the concrete state `stA`, handle 1 (not live, so without
alpha) passes through unchanged, and handle 0 (with alpha) is flattened into
the fresh opaque handle while being released. -/
theorem C6_presave_and_flatten_witness :
    vipsFlattenBackground stA 1 ⟨255, 255, 255⟩ 0 = (Except.ok 1, stA) ∧
      ((vipsFlattenBackground stA 0 ⟨255, 255, 255⟩ 0).1 = Except.ok stA.next ∧
        vipsHasAlpha (vipsFlattenBackground stA 0 ⟨255, 255, 255⟩ 0).2 stA.next = false ∧
        ((vipsFlattenBackground stA 0 ⟨255, 255, 255⟩ 0).2.isLive 0) = false ∧
        (vipsFlattenBackground stA 0 ⟨255, 255, 255⟩ 0).2.trace =
          NCall.flattenC :: stA.trace) :=
  ⟨C6_presave_and_flatten.2.1 stA 1 ⟨255, 255, 255⟩ 0 (by decide),
    C6_presave_and_flatten.2.2 stA 0 ⟨255, 255, 255⟩ (by decide)⟩

/-! ### C9 -/

/-- With a zero colourspace return code the pre-save stage always succeeds. -/
theorem vipsPreSave_ok (st : VState) (image : Nat) (o : vipsSaveOptions) (csOutA : Img) :
    ∃ t, (vipsPreSave st image o 0 csOutA).1 = Except.ok t := by
  simp only [vipsPreSave]
  repeat' split
  all_goals first
    | omega
    | exact ⟨_, rfl⟩

/-- The pre-save stage never changes the target type in the options record. -/
theorem vipsPreSave_Typ (st : VState) (image : Nat) (o : vipsSaveOptions)
    (csCode : Int) (csOutA : Img) :
    (vipsPreSave st image o csCode csOutA).2.1.Typ = o.Typ := by
  simp only [vipsPreSave]
  repeat' split
  all_goals rfl

/-- C9: when the pre-save stage succeeds (zero colourspace code), the encode
step pushes exactly one encoder call, chosen by `SaveOptions.Type`: the WEBP
encoder for WEBP, the PNG encoder for PNG, and the JPEG encoder for every
other type; the pre-save stage itself performs no encoder call. -/
theorem C9_save_dispatch :
    ∀ (st : VState) (image : Nat) (o : vipsSaveOptions) (saveCode : Int) (csOutA : Img),
      ((vipsSave st image o 0 saveCode csOutA).2.trace =
        (if o.Typ = WEBP then NCall.webpsaveC
          else if o.Typ = PNG then NCall.pngsaveC else NCall.jpegsaveC)
          :: (vipsPreSave st image o 0 csOutA).2.2.trace) ∧
      ((vipsPreSave st image o 0 csOutA).2.2.trace.countP isEncoderCall =
        st.trace.countP isEncoderCall) := by
  intro st image o saveCode csOutA
  constructor
  · obtain ⟨t, ht⟩ := vipsPreSave_ok st image o csOutA
    simp only [vipsSave, ht]
    rw [vipsPreSave_Typ]
    repeat' split
    all_goals simp
  · simp only [vipsPreSave]
    repeat' split
    all_goals simp [List.countP_cons, isEncoderCall]

/-! ### C10 -/

/-- C10: `ImageTypeName` yields a name other than "unknown" exactly for the
five registered types (JPEG, PNG, WEBP, TIFF, MAGICK); every other value of
the `ImageType` integer — the declared members GIF, PDF, SVG and UNKNOWN
included — maps to "unknown", and `IsTypeSupported`/`IsTypeSupportedSave` are
false for GIF, PDF and SVG whatever the engine capability table says. -/
theorem C10_image_type_names :
    (∀ t : ImageType, t ≠ JPEG → t ≠ PNG → t ≠ WEBP → t ≠ TIFF → t ≠ MAGICK →
      ImageTypeName t = "unknown") ∧
    ImageTypeName JPEG = "jpeg" ∧ ImageTypeName PNG = "png" ∧
    ImageTypeName WEBP = "webp" ∧ ImageTypeName TIFF = "tiff" ∧
    ImageTypeName MAGICK = "magick" ∧
    ImageTypeName GIF = "unknown" ∧ ImageTypeName PDF = "unknown" ∧
    ImageTypeName SVG = "unknown" ∧ ImageTypeName UNKNOWN = "unknown" ∧
    (∀ supported : List (ImageType × SupportedImageType),
      IsTypeSupported supported GIF = false ∧ IsTypeSupported supported PDF = false ∧
      IsTypeSupported supported SVG = false ∧
      IsTypeSupportedSave supported GIF = false ∧
      IsTypeSupportedSave supported PDF = false ∧
      IsTypeSupportedSave supported SVG = false) := by
  refine ⟨?_, rfl, rfl, rfl, rfl, rfl, rfl, rfl, rfl, rfl,
    fun supported => ⟨rfl, rfl, rfl, rfl, rfl, rfl⟩⟩
  intro t h1 h2 h3 h4 h5
  have e1 : (t == JPEG) = false := beq_eq_false_iff_ne.mpr h1
  have e2 : (t == PNG) = false := beq_eq_false_iff_ne.mpr h2
  have e3 : (t == WEBP) = false := beq_eq_false_iff_ne.mpr h3
  have e4 : (t == TIFF) = false := beq_eq_false_iff_ne.mpr h4
  have e5 : (t == MAGICK) = false := beq_eq_false_iff_ne.mpr h5
  unfold ImageTypeName ImageTypes
  rw [List.lookup_cons, e1, List.lookup_cons, e2, List.lookup_cons, e3,
    List.lookup_cons, e4, List.lookup_cons, e5]
  rfl

/-- C10 witness: the out-of-enum value 42 also maps to "unknown". -/
theorem C10_image_type_names_witness : ImageTypeName 42 = "unknown" :=
  C10_image_type_names.1 42 (by decide) (by decide) (by decide) (by decide) (by decide)

/-! ### C2 -/

/-- C2 counterexample: the 3-byte buffer holding the JPEG magic is shorter
than 12 bytes yet the sniffer returns JPEG, not Unknown; and on the 1-byte
buffer `[0x00]` the sniffer's WEBP check reads index 8, past the end of the
buffer (a Go runtime panic, modelled as `none`), instead of returning
Unknown. -/
theorem C2_counterexample :
    ([0xFF, 0xD8, 0xFF] : List Nat).length < 12 ∧
      DetermineImageType [0xFF, 0xD8, 0xFF] false false = some JPEG ∧
      JPEG ≠ UNKNOWN ∧
      ([0x00] : List Nat).length < 12 ∧
      DetermineImageType [0x00] false false = none := by
  exact ⟨by decide, rfl, by decide, by decide, rfl⟩

/-- C2 amended: a buffer shorter than 12 bytes is never classified as WEBP
(the WEBP magic needs index 11), and the empty buffer yields Unknown without
inspecting any byte; a short nonempty buffer may instead be classified by a
shorter magic (JPEG, PNG, TIFF, MAGICK) or hit an out-of-range index (a Go
runtime panic) rather than returning Unknown. -/
theorem C2_short_buffer_sniffing :
    ∀ (bytes : List Nat) (hm ms : Bool), bytes.length < 12 →
      vipsImageType bytes hm ms ≠ some WEBP ∧
      (bytes = [] → vipsImageType bytes hm ms = some UNKNOWN) := by
  intro bytes hm ms hlen
  constructor
  · intro hW
    by_cases h0 : bytes.length = 0
    · unfold vipsImageType at hW
      rw [if_pos h0] at hW
      exact absurd (Option.some.inj hW) (by decide)
    · unfold vipsImageType at hW
      rw [if_neg h0] at hW
      cases hpng : scAnd bytes [(0, 0x89), (1, 0x50), (2, 0x4E), (3, 0x47)] with
      | none => rw [hpng] at hW; cases hW
      | some bpng =>
        rw [hpng] at hW
        cases bpng with
        | true => exact absurd (Option.some.inj hW) (by decide)
        | false =>
          cases hjpg : scAnd bytes [(0, 0xFF), (1, 0xD8), (2, 0xFF)] with
          | none => rw [hjpg] at hW; cases hW
          | some bjpg =>
            rw [hjpg] at hW
            cases bjpg with
            | true => exact absurd (Option.some.inj hW) (by decide)
            | false =>
              cases hwebp : scAnd bytes [(8, 0x57), (9, 0x45), (10, 0x42), (11, 0x50)] with
              | none => rw [hwebp] at hW; cases hW
              | some bw =>
                rw [hwebp] at hW
                cases bw with
                | true =>
                  have h11 := scAnd_true_bound bytes _ hwebp (11, 0x50) (by simp)
                  omega
                | false =>
                  cases htf : scAnd bytes [(0, 0x49), (1, 0x49), (2, 0x2A), (3, 0x00)] with
                  | none => rw [htf] at hW; cases hW
                  | some bt =>
                    rw [htf] at hW
                    cases bt with
                    | true => exact absurd (Option.some.inj hW) (by decide)
                    | false =>
                      cases htf2 : scAnd bytes [(0, 0x4D), (1, 0x4D), (2, 0x00), (3, 0x2A)] with
                      | none => rw [htf2] at hW; cases hW
                      | some bt2 =>
                        rw [htf2] at hW
                        cases bt2 with
                        | true => exact absurd (Option.some.inj hW) (by decide)
                        | false =>
                          cases hmm : hm && ms with
                          | true =>
                            rw [hmm] at hW
                            exact absurd (Option.some.inj hW) (by decide)
                          | false =>
                            rw [hmm] at hW
                            exact absurd (Option.some.inj hW) (by decide)
  · intro he
    subst he
    rfl

/-- C2 witness: the amended statement at the empty buffer. -/
theorem C2_short_buffer_sniffing_witness :
    vipsImageType [] false false ≠ some WEBP ∧
      (([] : List Nat) = [] → vipsImageType [] false false = some UNKNOWN) :=
  C2_short_buffer_sniffing [] false false (by decide)

/-! ### C3 and C8: lifecycle -/

/-- The pristine lifecycle state (process start). -/
def lsFresh : LifeState :=
  { initialized := false, vipsInitCalls := 0, cacheMaxMem := 0, cacheMax := 0
    concurrency := none, traceEnabled := false, shutdowns := 0 }

/-- The state after one successful `Initialize` (version 8.0, empty env). -/
def lsOnce : LifeState :=
  { initialized := true, vipsInitCalls := 1, cacheMaxMem := maxCacheMem
    cacheMax := maxCacheSize, concurrency := some 1, traceEnabled := false
    shutdowns := 0 }

/-- The state after a second `Initialize`. -/
def lsTwice : LifeState := { lsOnce with vipsInitCalls := 2 }

/-- C3 counterexample: a second sequential `Initialize` is not a no-op — it
invokes the native `vips_init` sequence again (the counter rises to 2 and the
state changes), because the function has no guard on the `initialized` flag. -/
theorem C3_counterexample :
    Initialize 8 0 0 "" "" lsFresh = some lsOnce ∧
      lsOnce.initialized = true ∧
      Initialize 8 0 0 "" "" lsOnce = some lsTwice ∧
      lsTwice ≠ lsOnce := by
  exact ⟨by decide, rfl, by decide, by decide⟩

/-- C3 amended: `Initialize` has no initialized-flag guard: every call with a
supported version and a successful native init — a second sequential call
included — re-runs the native initialization (the `vips_init` counter rises)
and leaves the flag set; the guarded, idempotent side of the lifecycle is
`Shutdown`, which is a no-op when not initialized. -/
theorem C3_initialize_not_guarded :
    (∀ (st : LifeState) (major minor : Int) (concEnv traceEnv : String),
      ¬(major ≤ 7 ∧ minor < 40) →
      ∃ st', Initialize major minor 0 concEnv traceEnv st = some st' ∧
        st'.initialized = true ∧ st'.vipsInitCalls = st.vipsInitCalls + 1) ∧
    (∀ st : LifeState, st.initialized = false → Shutdown st = st) := by
  constructor
  · intro st major minor concEnv traceEnv hguard
    unfold Initialize
    rw [if_neg hguard, if_neg (by omega)]
    exact ⟨_, rfl, rfl, rfl⟩
  · intro st hst
    unfold Shutdown
    rw [hst]
    simp

/-- C3 witness: the amended statement on the concrete already-initialized
state `lsOnce` and the pristine `lsFresh`. -/
theorem C3_initialize_not_guarded_witness :
    (∃ st', Initialize 8 0 0 "" "" lsOnce = some st' ∧
      st'.initialized = true ∧ st'.vipsInitCalls = lsOnce.vipsInitCalls + 1) ∧
      Shutdown lsFresh = lsFresh :=
  ⟨C3_initialize_not_guarded.1 lsOnce 8 0 "" "" (by decide),
    C3_initialize_not_guarded.2 lsFresh (by decide)⟩

/-- C8 counterexample: version 6.40 is below the supported minimum 7.40, yet
the guard `major <= 7 && minor < 40` does not fire (40 < 40 fails), so
`Initialize` passes the version check instead of aborting. -/
theorem C8_counterexample :
    specVersionBelowMinimum 6 40 ∧ (Initialize 6 40 0 "" "" lsFresh).isSome = true := by
  exact ⟨by decide, by decide⟩

/-- C8 amended: with a successful native init, `Initialize` aborts exactly
when `major <= 7` and `minor < 40`; every version that aborts is indeed below
the 7.40 minimum (and hence every version at or above 7.40 passes), but the
converse fails: versions below 7.40 whose minor is at least 40, such as 6.40,
pass the check. -/
theorem C8_version_guard :
    ∀ (major minor : Int) (concEnv traceEnv : String) (st : LifeState),
      (Initialize major minor 0 concEnv traceEnv st = none ↔ major ≤ 7 ∧ minor < 40) ∧
      (major ≤ 7 ∧ minor < 40 → specVersionBelowMinimum major minor) := by
  intro major minor concEnv traceEnv st
  constructor
  · unfold Initialize
    by_cases hg : major ≤ 7 ∧ minor < 40
    · rw [if_pos hg]
      exact iff_of_true rfl hg
    · rw [if_neg hg, if_neg (by omega)]
      exact iff_of_false (by simp) hg
  · intro hg
    simp only [specVersionBelowMinimum, Bool.or_eq_true, Bool.and_eq_true,
      decide_eq_true_eq, beq_iff_eq]
    omega

/-- C8 witness: the amended statement at version 7.39 (which aborts and is
below the minimum). -/
theorem C8_version_guard_witness :
    ((Initialize 7 39 0 "" "" lsFresh = none ↔ (7 : Int) ≤ 7 ∧ (39 : Int) < 40) ∧
      specVersionBelowMinimum 7 39) :=
  ⟨(C8_version_guard 7 39 "" "" lsFresh).1,
    (C8_version_guard 7 39 "" "" lsFresh).2 (by decide)⟩
